import Mathlib

/-!
Verification of the bike-shop inventory application core: the Firestore
access-policy rules (src/firestore.rules), the bike data-service
operations (associateBikeWithUser, createBikeForUser,
purchaseBikeForUser), the client-deletion cascade, and client-side role
resolution. Documents are modelled as records, each Firestore collection
as an association list from document id to document, and each service
function as an explicit state-passing function returning the resulting
database together with success or a thrown error message. External
write failures (network or permission errors raised by the backend) are
modelled by an explicit fault parameter: when the fault is present the
corresponding write raises that error instead of landing.
-/

/-- Lookup of a document by id in a collection modelled as an
association list (first binding wins, matching unique Firestore ids). -/
def lookupDoc {α : Type} : List (String × α) → String → Option α
  | [], _ => none
  | (k, v) :: rest, key => if k = key then some v else lookupDoc rest key

/-- Firestore setDoc / committed batch update: replace the binding for
the id if present, otherwise append a fresh binding. -/
def writeDoc {α : Type} : List (String × α) → String → α → List (String × α)
  | [], key, v => [(key, v)]
  | (k, w) :: rest, key, v =>
      if k = key then (key, v) :: rest else (k, w) :: writeDoc rest key v

/-- Firestore document deletion: remove every binding for the id. -/
def eraseDoc {α : Type} : List (String × α) → String → List (String × α)
  | [], _ => []
  | (k, w) :: rest, key =>
      if k = key then eraseDoc rest key else (k, w) :: eraseDoc rest key

/-- Firestore arrayUnion on a string array: append the element at the
end unless it is already present. -/
def arrayUnion (xs : List String) (x : String) : List String :=
  if x ∈ xs then xs else xs ++ [x]

/-- A users/{id} document (src/types.ts User): role is optional to model
a document whose role field is absent; bikes and jobs are the arrays of
associated document ids; updatedAt models the serverTimestamp field. -/
structure UserDoc where
  name : String
  email : String
  role : Option String
  bikes : List String
  jobs : List String
  createdAt : Nat
  updatedAt : Nat
  deriving Repr, DecidableEq

/-- A bikes/{id} document (src/types.ts Bike plus the fields written by
the service layer): status ranges over "available" / "sold" /
"maintenance"; userId is the owner reference stored by
createBikeForUser; clientId and clientName are the purchaser
association written by purchaseBikeForUser and cleared by the client
deletion cascade. -/
structure BikeDoc where
  brand : String
  model : String
  serialNumber : String
  year : Int
  color : String
  bikeType : String
  size : String
  status : String
  photos : List String
  userId : Option String
  clientId : Option String
  clientName : Option String
  createdAt : Nat
  updatedAt : Nat
  deriving Repr, DecidableEq

/-- A clients/{id} document (src/types.ts Client without the id). -/
structure ClientDoc where
  name : String
  phone : String
  email : Option String
  bikeSerialNumbers : List String
  deriving Repr, DecidableEq

/-- The document store: the three collections the verified flows touch. -/
structure DB where
  users : List (String × UserDoc)
  bikes : List (String × BikeDoc)
  clients : List (String × ClientDoc)
  deriving Repr, DecidableEq

/-- Models associateBikeWithUser (data service module): an updateDoc on
users/{userId} adding bikeId to the bikes array via arrayUnion and
refreshing updatedAt. An updateDoc on a missing document fails with the
backend error; the catch block only logs and rethrows. The fault
parameter injects an external write failure (network or permission
error raised by the backend), in which case that error is thrown and no
write lands. -/
def associateBikeWithUser (fault : Option String) (userId bikeId : String)
    (now : Nat) (db : DB) : Except String Unit × DB :=
  match fault with
  | some e => (Except.error e, db)
  | none =>
    match lookupDoc db.users userId with
    | none => (Except.error "No document to update", db)
    | some u =>
        (Except.ok (),
         { db with users := (writeDoc db.users userId
             { u with bikes := arrayUnion u.bikes bikeId, updatedAt := now }) })

/-- Models purchaseBikeForUser (data service module): fetch the user and
bike documents, fail with "User not found" / "Bike not found" when
absent, fail with the not-available error when the re-read status is
not "available"; otherwise update the bike document to status "sold"
with clientId set to the purchaser, then run associateBikeWithUser.
assocFault injects an external failure of that final association write;
the catch block only logs and rethrows. -/
def purchaseBikeForUser (assocFault : Option String) (userId bikeId : String)
    (now : Nat) (db : DB) : Except String Unit × DB :=
  match lookupDoc db.users userId with
  | none => (Except.error "User not found", db)
  | some _ =>
    match lookupDoc db.bikes bikeId with
    | none => (Except.error "Bike not found", db)
    | some bikeData =>
      if bikeData.status ≠ "available" then
        (Except.error "This bike is not available for purchase", db)
      else
        associateBikeWithUser assocFault userId bikeId now
          { db with bikes := (writeDoc db.bikes bikeId
              { bikeData with status := "sold", clientId := some userId, updatedAt := now }) }

/-- The bike fields passed to createBikeForUser (the Omit of Bike over
id / createdAt / updatedAt, as the new-bike screen builds it). -/
structure BikeInput where
  brand : String
  model : String
  serialNumber : String
  year : Int
  color : String
  bikeType : String
  size : String
  status : String
  photos : List String
  deriving Repr, DecidableEq

/-- Models createBikeForUser (data service module): fetch the user
document, fail with "User not found" when absent, fail with the
administrators-only error when its role is not "admin"; otherwise
setDoc a new bike document under a generated id (the Date.now string,
passed here as newBikeId) carrying the input fields plus the owning
userId and timestamps, then run associateBikeWithUser and return the
new id. -/
def createBikeForUser (assocFault : Option String) (userId : String)
    (bikeData : BikeInput) (newBikeId : String) (now : Nat) (db : DB) :
    Except String String × DB :=
  match lookupDoc db.users userId with
  | none => (Except.error "User not found", db)
  | some userData =>
    if userData.role ≠ some "admin" then
      (Except.error "Only administrators can create new bikes", db)
    else
      let bikeWithMetadata : BikeDoc :=
        { brand := bikeData.brand, model := bikeData.model,
          serialNumber := bikeData.serialNumber, year := bikeData.year,
          color := bikeData.color, bikeType := bikeData.bikeType,
          size := bikeData.size, status := bikeData.status,
          photos := bikeData.photos, userId := some userId,
          clientId := none, clientName := none,
          createdAt := now, updatedAt := now }
      let db1 := { db with bikes := writeDoc db.bikes newBikeId bikeWithMetadata }
      match associateBikeWithUser assocFault userId newBikeId now db1 with
      | (Except.ok _, db2) => (Except.ok newBikeId, db2)
      | (Except.error e, db2) => (Except.error e, db2)

/-- The form state of the new-bike screen (src/app/bikes/new.tsx). -/
structure BikeFormData where
  brand : String
  model : String
  serialNumber : String
  year : String
  color : String
  bikeType : String
  size : String
  deriving Repr, DecidableEq

/-- The bike input the new-bike screen submits: the form fields with the
parsed year, status fixed to "available" and an empty photos array. -/
def bikeInputOfForm (f : BikeFormData) (yearNumber : Int) : BikeInput :=
  { brand := f.brand, model := f.model, serialNumber := f.serialNumber,
    year := yearNumber, color := f.color, bikeType := f.bikeType,
    size := f.size, status := "available", photos := [] }

/-- Models the submit path of NewBikeScreen.handleSubmit once the
client-side checks pass (every form field nonempty, a signed-in user,
parseInt of the year succeeded with value yearNumber): it calls
createBikeForUser with the logged-in user id and bikeInputOfForm. The
alert dialogs shown on validation failure never reach the data layer
and are elided. -/
def newBikeHandleSubmit (assocFault : Option String) (userId : String)
    (f : BikeFormData) (yearNumber : Int) (newBikeId : String) (now : Nat)
    (db : DB) : Except String String × DB :=
  createBikeForUser assocFault userId (bikeInputOfForm f yearNumber) newBikeId now db

theorem lookupDoc_writeDoc_self {α : Type} (l : List (String × α)) (k : String) (v : α) :
    lookupDoc (writeDoc l k v) k = some v := by
  induction l with
  | nil => simp [writeDoc, lookupDoc]
  | cons hd tl ih =>
    obtain ⟨k0, v0⟩ := hd
    by_cases h : k0 = k
    · simp [writeDoc, lookupDoc, h]
    · simp [writeDoc, lookupDoc, h, ih]

theorem lookupDoc_writeDoc_ne {α : Type} (l : List (String × α)) (k k' : String) (v : α)
    (h : k ≠ k') : lookupDoc (writeDoc l k v) k' = lookupDoc l k' := by
  induction l with
  | nil => simp [writeDoc, lookupDoc, h]
  | cons hd tl ih =>
    obtain ⟨k0, v0⟩ := hd
    by_cases h0 : k0 = k
    · subst h0
      simp [writeDoc, lookupDoc, h]
    · simp [writeDoc, lookupDoc, h0, ih]

theorem lookupDoc_eraseDoc_self {α : Type} (l : List (String × α)) (k : String) :
    lookupDoc (eraseDoc l k) k = none := by
  induction l with
  | nil => simp [eraseDoc, lookupDoc]
  | cons hd tl ih =>
    obtain ⟨k0, v0⟩ := hd
    by_cases h : k0 = k
    · simp [eraseDoc, h, ih]
    · simp [eraseDoc, lookupDoc, h, ih]

/-- The four document operations the security rules distinguish. -/
inductive AccessOp where
  | create
  | read
  | update
  | delete
  deriving Repr, DecidableEq

/-- Models the isAdmin() function of src/firestore.rules: the request is
authenticated and the get() of users/{request.auth.uid} yields a
document whose role field equals "admin". A failed get() (missing
document) or a missing role field makes the rule condition evaluate
false, denying the request. auth is none for an unauthenticated
request and some uid for a signed-in requester. -/
def rulesIsAdmin (db : DB) (auth : Option String) : Bool :=
  match auth with
  | none => false
  | some uid =>
    match lookupDoc db.users uid with
    | none => false
    | some u => u.role == some "admin"

/-- Models the match /users/{userId} block of src/firestore.rules:
create, read and update each require an authenticated requester whose
uid equals the document id; no rule mentions delete, and an operation
no rule allows is denied. -/
def usersAllow (auth : Option String) (userId : String) (op : AccessOp) : Bool :=
  match op with
  | AccessOp.create => auth.isSome && auth == some userId
  | AccessOp.read => auth.isSome && auth == some userId
  | AccessOp.update => auth.isSome && auth == some userId
  | AccessOp.delete => false

/-- Models the match /bikes/{bikeId} block of src/firestore.rules:
create requires an authenticated admin; read requires authentication
and status "available" or ownership (the documents userId equals the
requester uid) or admin; update and delete require authentication and
ownership or admin. For create, bike is the incoming document, which
the rule does not consult. -/
def bikesAllow (db : DB) (auth : Option String) (bike : BikeDoc) (op : AccessOp) : Bool :=
  match op with
  | AccessOp.create => auth.isSome && rulesIsAdmin db auth
  | AccessOp.read =>
      auth.isSome &&
        (bike.status == "available" || bike.userId == auth || rulesIsAdmin db auth)
  | AccessOp.update => auth.isSome && (bike.userId == auth || rulesIsAdmin db auth)
  | AccessOp.delete => auth.isSome && (bike.userId == auth || rulesIsAdmin db auth)

/-- Models the isAdmin flag computed by the onAuthStateChanged handler
of AuthProvider for a signed-in user: when the getDoc of the users
document throws (modelled by lookupFails) the catch branch sets
isAdmin false; when the document is missing a fresh record with role
"user" is written and isAdmin is false; otherwise isAdmin is the test
that the stored role equals "admin". displayName and email are the
auth-provider profile fields used to build the fresh record. -/
def clientResolveAuth (db : DB) (uid : String) (displayName email : Option String)
    (lookupFails : Bool) (now : Nat) : Bool × DB :=
  if lookupFails then (false, db)
  else
    match lookupDoc db.users uid with
    | some u => (u.role == some "admin", db)
    | none =>
        let newUser : UserDoc :=
          { name := displayName.getD "User", email := email.getD "",
            role := some "user", bikes := [], jobs := [],
            createdAt := now, updatedAt := now }
        (false, { db with users := writeDoc db.users uid newUser })

/-- The alert dialogs a flow raises, as (title, message) pairs. -/
abbrev Alerts := List (String × String)

/-- Updates applied by the client-deletion batch to one bike binding:
a bike whose clientId equals the deleted client has clientId and
clientName set to null; every other bike is untouched. -/
def clearClientAssoc (clientId : String) (kb : String × BikeDoc) : String × BikeDoc :=
  (kb.1,
   if kb.2.clientId = some clientId then
     { kb.2 with clientId := none, clientName := none }
   else
     kb.2)

/-- Models ClientList.deleteClient (client list component): query the
bikes whose clientId equals the client, build one batch that clears
clientId and clientName on each of them and deletes the client
document, and commit it. The batch commits atomically, so an injected
fault (a thrown query or commit error) leaves the store unchanged and
the catch branch surfaces the error message in an alert dialog; on
success a success alert is shown. -/
def deleteClient (fault : Option String) (clientId : String) (db : DB) :
    Except String Unit × DB × Alerts :=
  match fault with
  | some e => (Except.error e, db, [("Error", e)])
  | none =>
      let db1 : DB :=
        { db with
            bikes := db.bikes.map (clearClientAssoc clientId),
            clients := eraseDoc db.clients clientId }
      (Except.ok (), db1, [("Success", "Client deleted successfully")])

/-- Lookup after the client-deletion batch on the bikes collection:
each binding keeps its id and its bike is cleared exactly when its
clientId matched the deleted client. -/
theorem lookupDoc_map_clearClientAssoc (l : List (String × BikeDoc)) (c k : String) :
    lookupDoc (l.map (clearClientAssoc c)) k =
      (lookupDoc l k).map (fun b =>
        if b.clientId = some c then { b with clientId := none, clientName := none } else b) := by
  induction l with
  | nil => simp [lookupDoc]
  | cons hd tl ih =>
    obtain ⟨k0, b0⟩ := hd
    by_cases h : k0 = k
    · simp [lookupDoc, clearClientAssoc, h]
    · simp [lookupDoc, clearClientAssoc, h, ih]

theorem self_mem_arrayUnion (xs : List String) (x : String) : x ∈ arrayUnion xs x := by
  unfold arrayUnion
  by_cases h : x ∈ xs
  · simp [h]
  · simp [h]

theorem arrayUnion_nodup (xs : List String) (x : String) (h : xs.Nodup) :
    (arrayUnion xs x).Nodup := by
  unfold arrayUnion
  by_cases hm : x ∈ xs
  · simp [hm, h]
  · simp [hm, h, List.nodup_append]

theorem arrayUnion_idem (xs : List String) (x : String) :
    arrayUnion (arrayUnion xs x) x = arrayUnion xs x := by
  unfold arrayUnion
  by_cases h : x ∈ xs <;> simp [h]

/-- Demo fixtures used by the concrete witnesses below. -/
def adminUser : UserDoc :=
  { name := "Alice", email := "alice@shop.example", role := some "admin",
    bikes := [], jobs := [], createdAt := 0, updatedAt := 0 }

def plainUser : UserDoc :=
  { name := "Bob", email := "bob@shop.example", role := some "user",
    bikes := [], jobs := [], createdAt := 0, updatedAt := 0 }

def availableBike : BikeDoc :=
  { brand := "Giant", model := "Escape", serialNumber := "SN100",
    year := 2020, color := "red", bikeType := "road", size := "M",
    status := "available", photos := [], userId := some "admin1",
    clientId := none, clientName := none, createdAt := 0, updatedAt := 0 }

def soldBike : BikeDoc :=
  { availableBike with
      status := "sold"
      serialNumber := "SN200"
      clientId := some "c1"
      clientName := some "Carol" }

def carolClient : ClientDoc :=
  { name := "Carol", phone := "5551234", email := none,
    bikeSerialNumbers := ["SN200"] }

def demoDB : DB :=
  { users := [("admin1", adminUser), ("u1", plainUser)],
    bikes := [("b1", availableBike), ("b2", soldBike)],
    clients := [("c1", carolClient)] }

def demoInput : BikeInput :=
  { brand := "Trek", model := "FX", serialNumber := "SN300", year := 2021,
    color := "blue", bikeType := "hybrid", size := "L",
    status := "available", photos := [] }

/-- C3: the bike read rule is a three-way OR: an authenticated requester
r may read bike b iff b has status "available", or b's stored userId
equals r, or r resolves to admin; hence any authenticated identity may
read any available bike, and a non-admin requester is denied reads of
any non-available bike it does not own. -/
theorem bike_read_rule_three_way_or (db : DB) (r : String) (bike : BikeDoc) :
    (bikesAllow db (some r) bike AccessOp.read = true ↔
      (bike.status = "available" ∨ bike.userId = some r ∨ rulesIsAdmin db (some r) = true))
    ∧ (bike.status = "available" → bikesAllow db (some r) bike AccessOp.read = true)
    ∧ (rulesIsAdmin db (some r) = false → bike.status ≠ "available" →
        bike.userId ≠ some r → bikesAllow db (some r) bike AccessOp.read = false) := by
  refine ⟨?_, ?_, ?_⟩
  · simp [bikesAllow, or_assoc]
  · intro h
    simp [bikesAllow, h]
  · intro h1 h2 h3
    simp [bikesAllow, h1, h2, h3]

theorem bike_read_rule_three_way_or_witness :
    bikesAllow demoDB (some "u1") availableBike AccessOp.read = true ∧
    bikesAllow demoDB (some "u1") soldBike AccessOp.read = false :=
  ⟨(bike_read_rule_three_way_or demoDB "u1" availableBike).2.1 rfl,
   (bike_read_rule_three_way_or demoDB "u1" soldBike).2.2
     (by decide) (by decide) (by decide)⟩

/-- C4: a requester whose resolved role is admin is allowed all four
bike operations (create, read, update, delete) on every bike document,
regardless of the document's status or userId owner field. -/
theorem admin_all_bike_ops_allowed (db : DB) (r : String) (bike : BikeDoc)
    (op : AccessOp) (h : rulesIsAdmin db (some r) = true) :
    bikesAllow db (some r) bike op = true := by
  cases op <;> simp [bikesAllow, h]

theorem admin_all_bike_ops_allowed_witness :
    bikesAllow demoDB (some "admin1") soldBike AccessOp.delete = true :=
  admin_all_bike_ops_allowed demoDB "admin1" soldBike AccessOp.delete (by decide)

/-- C9: the users match block grants create, read and update only to the
requester whose uid equals the document id and mentions no delete rule,
and an operation no rule grants is denied: every delete request on a
users document is denied, for any requester including admins. -/
theorem users_delete_always_denied (auth : Option String) (userId : String)
    (op : AccessOp) :
    usersAllow auth userId AccessOp.delete = false
    ∧ usersAllow auth userId op = ((auth == some userId) && !(op == AccessOp.delete)) := by
  constructor
  · rfl
  · cases op <;> cases auth <;> simp [usersAllow]

/-- C8: role resolution yields admin iff the requester's own user
document exists and its role field equals exactly "admin"; a missing
document, a missing role field, or a failed lookup resolves to a plain
non-admin user, both in the rules evaluator and in the client-side
AuthProvider flag. -/
theorem role_resolution_admin_iff (db : DB) (uid : String)
    (displayName email : Option String) (lookupFails : Bool) (now : Nat) :
    (rulesIsAdmin db (some uid) = true ↔
      (∃ u, lookupDoc db.users uid = some u ∧ u.role = some "admin"))
    ∧ ((clientResolveAuth db uid displayName email lookupFails now).1 = true ↔
      (lookupFails = false ∧
        ∃ u, lookupDoc db.users uid = some u ∧ u.role = some "admin")) := by
  constructor
  · unfold rulesIsAdmin
    cases h : lookupDoc db.users uid with
    | none => simp [h]
    | some u => simp [h]
  · unfold clientResolveAuth
    cases lookupFails with
    | true => simp
    | false =>
      cases h : lookupDoc db.users uid with
      | none => simp [h]
      | some u => simp [h]

/-- The store a successful purchase produces: the bike rewritten to
status "sold" with clientId the purchaser, and the purchaser's bikes
array extended by arrayUnion. -/
theorem purchase_success_eq (db : DB) (uid bikeId : String) (now : Nat)
    (u : UserDoc) (b : BikeDoc)
    (hu : lookupDoc db.users uid = some u)
    (hb : lookupDoc db.bikes bikeId = some b)
    (hstatus : b.status = "available") :
    purchaseBikeForUser none uid bikeId now db =
      (Except.ok (),
       { db with
           bikes := (writeDoc db.bikes bikeId
             { b with status := "sold", clientId := some uid, updatedAt := now }),
           users := (writeDoc db.users uid
             { u with bikes := arrayUnion u.bikes bikeId, updatedAt := now }) }) := by
  simp [purchaseBikeForUser, hu, hb, hstatus, associateBikeWithUser]

/-- C1: for an existing user and an existing bike with status
"available", the successful purchase leaves the bike document with
status "sold" and clientId the purchaser, and the purchaser's user
document's bikes array contains the bike. -/
theorem purchase_success_postconditions (db : DB) (uid bikeId : String)
    (now : Nat) (u : UserDoc) (b : BikeDoc)
    (hu : lookupDoc db.users uid = some u)
    (hb : lookupDoc db.bikes bikeId = some b)
    (hstatus : b.status = "available") :
    (purchaseBikeForUser none uid bikeId now db).1 = Except.ok ()
    ∧ (∃ b2, lookupDoc (purchaseBikeForUser none uid bikeId now db).2.bikes bikeId = some b2
        ∧ b2.status = "sold" ∧ b2.clientId = some uid)
    ∧ (∃ u2, lookupDoc (purchaseBikeForUser none uid bikeId now db).2.users uid = some u2
        ∧ bikeId ∈ u2.bikes) := by
  rw [purchase_success_eq db uid bikeId now u b hu hb hstatus]
  exact ⟨rfl,
    ⟨_, lookupDoc_writeDoc_self _ _ _, rfl, rfl⟩,
    ⟨_, lookupDoc_writeDoc_self _ _ _, self_mem_arrayUnion _ _⟩⟩

theorem purchase_success_postconditions_witness :
    (purchaseBikeForUser none "u1" "b1" 5 demoDB).1 = Except.ok ()
    ∧ (∃ b2, lookupDoc (purchaseBikeForUser none "u1" "b1" 5 demoDB).2.bikes "b1" = some b2
        ∧ b2.status = "sold" ∧ b2.clientId = some "u1")
    ∧ (∃ u2, lookupDoc (purchaseBikeForUser none "u1" "b1" 5 demoDB).2.users "u1" = some u2
        ∧ "b1" ∈ u2.bikes) :=
  purchase_success_postconditions demoDB "u1" "b1" 5 plainUser availableBike
    (by decide) (by decide) (by decide)

/-- A store holding a sold bike and no user documents, used to refute
C2 as universally stated over arbitrary user ids. -/
def noUserDB : DB :=
  { users := [], bikes := [("b2", soldBike)], clients := [] }

/-- C2 counterexample: for a user id with no user document, the purchase
of a bike whose re-fetched status is "sold" fails with "User not found"
rather than with the not-available error the claim requires. -/
theorem purchase_unavailable_wrong_error_cex :
    (lookupDoc noUserDB.bikes "b2").map BikeDoc.status = some "sold"
    ∧ purchaseBikeForUser none "ghost" "b2" 0 noUserDB =
        (Except.error "User not found", noUserDB)
    ∧ ("User not found" : String) ≠ "This bike is not available for purchase" :=
  ⟨rfl, rfl, by decide⟩

/-- C2 amended: for a user whose user document exists, a purchase of a
bike whose re-fetched status is not "available" fails with the
not-available error and performs no write at all: the store, hence both
the bike document and the user document, is unchanged. -/
theorem purchase_unavailable_fails_no_write (fault : Option String) (db : DB)
    (uid bikeId : String) (now : Nat) (u : UserDoc) (b : BikeDoc)
    (hu : lookupDoc db.users uid = some u)
    (hb : lookupDoc db.bikes bikeId = some b)
    (hstatus : b.status ≠ "available") :
    purchaseBikeForUser fault uid bikeId now db =
      (Except.error "This bike is not available for purchase", db) := by
  simp [purchaseBikeForUser, hu, hb, hstatus]

theorem purchase_unavailable_fails_no_write_witness :
    purchaseBikeForUser none "u1" "b2" 3 demoDB =
      (Except.error "This bike is not available for purchase", demoDB) :=
  purchase_unavailable_fails_no_write none demoDB "u1" "b2" 3 plainUser soldBike
    (by decide) (by decide) (by decide)

/-- C5: when the user-association write of step 3 fails after the bike
update of step 2 succeeded, the bike document remains sold and assigned
to the purchaser, the users collection -- in particular the purchaser's
bikes array -- is untouched, no compensating write occurs, and the
error is propagated to the caller. -/
theorem purchase_assoc_failure_no_rollback (db : DB) (uid bikeId : String)
    (now : Nat) (e : String) (u : UserDoc) (b : BikeDoc)
    (hu : lookupDoc db.users uid = some u)
    (hb : lookupDoc db.bikes bikeId = some b)
    (hstatus : b.status = "available")
    (hnotin : bikeId ∉ u.bikes) :
    (purchaseBikeForUser (some e) uid bikeId now db).1 = Except.error e
    ∧ (∃ b2, lookupDoc (purchaseBikeForUser (some e) uid bikeId now db).2.bikes bikeId = some b2
        ∧ b2.status = "sold" ∧ b2.clientId = some uid)
    ∧ (purchaseBikeForUser (some e) uid bikeId now db).2.users = db.users
    ∧ (∃ u2, lookupDoc (purchaseBikeForUser (some e) uid bikeId now db).2.users uid = some u2
        ∧ bikeId ∉ u2.bikes) := by
  have h : purchaseBikeForUser (some e) uid bikeId now db =
      (Except.error e,
       { db with bikes := (writeDoc db.bikes bikeId
           { b with status := "sold", clientId := some uid, updatedAt := now }) }) := by
    simp [purchaseBikeForUser, hu, hb, hstatus, associateBikeWithUser]
  rw [h]
  exact ⟨rfl,
    ⟨_, lookupDoc_writeDoc_self _ _ _, rfl, rfl⟩,
    rfl,
    ⟨u, hu, hnotin⟩⟩

theorem purchase_assoc_failure_no_rollback_witness :
    (purchaseBikeForUser (some "network error") "u1" "b1" 9 demoDB).1 =
      Except.error "network error"
    ∧ (∃ b2, lookupDoc (purchaseBikeForUser (some "network error") "u1" "b1" 9 demoDB).2.bikes
          "b1" = some b2 ∧ b2.status = "sold" ∧ b2.clientId = some "u1")
    ∧ (purchaseBikeForUser (some "network error") "u1" "b1" 9 demoDB).2.users = demoDB.users
    ∧ (∃ u2, lookupDoc (purchaseBikeForUser (some "network error") "u1" "b1" 9 demoDB).2.users
          "u1" = some u2 ∧ "b1" ∉ u2.bikes) :=
  purchase_assoc_failure_no_rollback demoDB "u1" "b1" 9 "network error" plainUser
    availableBike (by decide) (by decide) (by decide) (by decide)

def demoForm : BikeFormData :=
  { brand := "Trek", model := "FX", serialNumber := "SN300", year := "2021",
    color := "blue", bikeType := "hybrid", size := "L" }

/-- C6: bike creation is admin-gated: when the caller's user document
has a role other than "admin", createBikeForUser fails with the
administrators-only error and writes nothing; when an admin submits the
new-bike screen, the created bike document has status "available". -/
theorem create_bike_admin_gate (db : DB) (uid : String) (fault : Option String)
    (bikeData : BikeInput) (newBikeId : String) (now : Nat) (u : UserDoc)
    (hu : lookupDoc db.users uid = some u) :
    (u.role ≠ some "admin" →
      createBikeForUser fault uid bikeData newBikeId now db =
        (Except.error "Only administrators can create new bikes", db))
    ∧ (u.role = some "admin" → ∀ f : BikeFormData, ∀ yearNumber : Int,
        ∃ b2, lookupDoc (newBikeHandleSubmit fault uid f yearNumber newBikeId now db).2.bikes
            newBikeId = some b2 ∧ b2.status = "available") := by
  constructor
  · intro hrole
    simp [createBikeForUser, hu, hrole]
  · intro hrole f yearNumber
    cases fault with
    | none =>
        simp only [newBikeHandleSubmit, createBikeForUser, hu, hrole,
          associateBikeWithUser]
        exact ⟨_, lookupDoc_writeDoc_self _ _ _, rfl⟩
    | some e =>
        simp only [newBikeHandleSubmit, createBikeForUser, hu, hrole,
          associateBikeWithUser]
        exact ⟨_, lookupDoc_writeDoc_self _ _ _, rfl⟩

theorem create_bike_admin_gate_witness :
    createBikeForUser none "u1" demoInput "b9" 7 demoDB =
      (Except.error "Only administrators can create new bikes", demoDB)
    ∧ (∃ b2, lookupDoc (newBikeHandleSubmit none "admin1" demoForm 2021 "b9" 7 demoDB).2.bikes
          "b9" = some b2 ∧ b2.status = "available") :=
  ⟨(create_bike_admin_gate demoDB "u1" none demoInput "b9" 7 plainUser
      (by decide)).1 (by decide),
   (create_bike_admin_gate demoDB "admin1" none demoInput "b9" 7 adminUser
      (by decide)).2 (by decide) demoForm 2021⟩

/-- C7: deleting a client clears the association (clientId and
clientName set to null) on every bike whose clientId equals that
client and removes the client document; a failure of the flow is
surfaced as an alert carrying the error message, with the atomic batch
leaving the store unchanged. -/
theorem delete_client_cascade (db : DB) (clientId : String) :
    (∀ bikeId b, lookupDoc db.bikes bikeId = some b → b.clientId = some clientId →
        lookupDoc (deleteClient none clientId db).2.1.bikes bikeId =
          some { b with clientId := none, clientName := none })
    ∧ lookupDoc (deleteClient none clientId db).2.1.clients clientId = none
    ∧ (∀ e, deleteClient (some e) clientId db = (Except.error e, db, [("Error", e)])) := by
  refine ⟨?_, ?_, ?_⟩
  · intro bikeId b hb hc
    show lookupDoc (db.bikes.map (clearClientAssoc clientId)) bikeId = _
    rw [lookupDoc_map_clearClientAssoc, hb]
    simp [hc]
  · show lookupDoc (eraseDoc db.clients clientId) clientId = none
    exact lookupDoc_eraseDoc_self _ _
  · intro e
    rfl

theorem delete_client_cascade_witness :
    lookupDoc (deleteClient none "c1" demoDB).2.1.bikes "b2" =
      some { soldBike with clientId := none, clientName := none } :=
  (delete_client_cascade demoDB "c1").1 "b2" soldBike (by decide) (by decide)

/-- Repeated invocation of the association write, used to state its
idempotence over the purchaser's bikes array. -/
def associateTimes (uid bikeId : String) (now : Nat) : Nat → DB → DB
  | 0, db => db
  | n + 1, db =>
      associateTimes uid bikeId now n (associateBikeWithUser none uid bikeId now db).2

/-- One association rewrites the user document by arrayUnion on the
bikes array. -/
theorem associate_once_users (db : DB) (uid bikeId : String) (now : Nat)
    (u : UserDoc) (hu : lookupDoc db.users uid = some u) :
    lookupDoc (associateBikeWithUser none uid bikeId now db).2.users uid =
      some { u with bikes := arrayUnion u.bikes bikeId, updatedAt := now } := by
  simp [associateBikeWithUser, hu, lookupDoc_writeDoc_self]

/-- C10: the association write is idempotent on the bikes array: adding
the bike id goes through arrayUnion, so after any positive number of
associations of the same bike with the same user the bikes array equals
the single arrayUnion, contains the bike id exactly once, and stays
duplicate-free. -/
theorem associate_idempotent_on_bikes (db : DB) (uid bikeId : String) (now : Nat)
    (u : UserDoc) (hu : lookupDoc db.users uid = some u) (hnd : u.bikes.Nodup)
    (n : Nat) (hn : 1 ≤ n) :
    ∃ u2, lookupDoc (associateTimes uid bikeId now n db).users uid = some u2
      ∧ u2.bikes = arrayUnion u.bikes bikeId
      ∧ u2.bikes.count bikeId = 1
      ∧ u2.bikes.Nodup := by
  induction n generalizing db u with
  | zero => exact absurd hn (by omega)
  | succ n ih =>
    simp only [associateTimes]
    have h1 := associate_once_users db uid bikeId now u hu
    have hnd1 : (arrayUnion u.bikes bikeId).Nodup := arrayUnion_nodup _ _ hnd
    cases Nat.eq_zero_or_pos n with
    | inl h0 =>
        subst h0
        simp only [associateTimes]
        refine ⟨_, h1, rfl, ?_, hnd1⟩
        exact List.count_eq_one_of_mem hnd1 (self_mem_arrayUnion _ _)
    | inr hpos =>
        obtain ⟨u2, hl, hbikes, hcount, hnd2⟩ := ih _ _ h1 hnd1 hpos
        refine ⟨u2, hl, ?_, hcount, hnd2⟩
        rw [hbikes]
        exact arrayUnion_idem _ _

theorem associate_idempotent_on_bikes_witness :
    ∃ u2, lookupDoc (associateTimes "u1" "bikeX" 4 3 demoDB).users "u1" = some u2
      ∧ u2.bikes = arrayUnion plainUser.bikes "bikeX"
      ∧ u2.bikes.count "bikeX" = 1
      ∧ u2.bikes.Nodup :=
  associate_idempotent_on_bikes demoDB "u1" "bikeX" 4 plainUser
    (by decide) (by decide) 3 (by decide)
